import Mathlib

/-!
Verification of the exatomic numerical-orbital core against its design
description.  The definitions below are shallow embeddings of the Python
source: `cartesian_gtf_exponents` from `exatomic/algorithms/basis.py`, the
fast/fallback dispatch, the `rcoefs`/`icoefs` guard and the occupation-column
resolution from `exatomic/algorithms/orbital.py`, and the field-attachment
state machine from `exatomic/universe.py` (`append_field`) together with
`_teardown_orbital`.  Functions that live in the `orbital_util` module (not
part of this excerpt) are modelled from the specification text and are marked
as such in their doc comments.
-/

/-- Shallow embedding of `cartesian_gtf_exponents(l)` from
`exatomic/algorithms/basis.py`.  The Python function preallocates an
`(m+1)*m/2 x 3` array (`m = l+1`) and fills successive rows from the triple
loop `for i in range(m): for j in range(m): for k in range(m)` keeping the
triples with `i + j + k == l`; the list below is exactly the sequence of rows
written, in order.  (The theorem on its length shows the preallocated array is
filled completely, so the list is the whole returned array.) -/
def cartesian_gtf_exponents (l : ℕ) : List (ℕ × ℕ × ℕ) :=
  (List.range (l + 1)).flatMap fun i =>
    (List.range (l + 1)).flatMap fun j =>
      ((List.range (l + 1)).filter fun k => i + j + k == l).map fun k => (i, j, k)

/-- Closed form of the enumeration: for each `i` the inner loops produce the
pairs `(j, l - i - j)` for `j < l + 1 - i`.  Used to reason about
`cartesian_gtf_exponents`. -/
def lexTriples (l : ℕ) : List (ℕ × ℕ × ℕ) :=
  (List.range (l + 1)).flatMap fun i =>
    (List.range (l + 1 - i)).map fun j => (i, j, l - i - j)

/-- Strict lexicographic order on exponent triples: ascending `i`, then `j`,
then `k`. -/
def lexLt (s t : ℕ × ℕ × ℕ) : Prop :=
  s.1 < t.1 ∨ (s.1 = t.1 ∧ (s.2.1 < t.2.1 ∨ (s.2.1 = t.2.1 ∧ s.2.2 < t.2.2)))

/-- Python exception classes relevant to the orbital evaluators. -/
inductive PyErr where
  | valueError
  | indexError
  | assertionError
  | typeError
  | exception (msg : String)
deriving DecidableEq

/-- The exception classes listed in the handler clause
`except (ValueError, IndexError, AssertionError)` of `add_molecular_orbitals`
and `add_density` in `exatomic/algorithms/orbital.py`. -/
def caughtByFallback : PyErr → Bool
  | PyErr.valueError => true
  | PyErr.indexError => true
  | PyErr.assertionError => true
  | _ => false

/-- Outcome of the dual fast/fallback dispatch: the delivered result together
with the list of argument tuples the nojit fallback was invoked on (one entry
per invocation). -/
structure DispatchLog (α β : Type) where
  result : Except PyErr β
  nojitArgs : List α

/-- Shallow embedding of the dispatch in `add_molecular_orbitals` and
`add_density` (`exatomic/algorithms/orbital.py`): the fast jit path is tried
first, and on ValueError, IndexError or AssertionError the nojit
implementation is called once on the same argument tuple inside the handler.
A Python call that raises is an `Except.error` carrying the exception class.
An exception raised by `slow` inside the handler replaces the in-flight
exception, which the embedding renders by returning `slow a` unchanged. -/
def computeOrbitalsWithFallback {α β : Type} (fast slow : α → Except PyErr β)
    (a : α) : DispatchLog α β :=
  match fast a with
  | Except.ok v => { result := Except.ok v, nojitArgs := [] }
  | Except.error e =>
      if caughtByFallback e then { result := slow a, nojitArgs := [a] }
      else { result := Except.error e, nojitArgs := [] }

/-- A field object: the per-field rows of the field-dimensions dataframe (the
frame column and the remaining grid metadata `dims`) together with the
parallel `field_values` list, as handled by `Universe.append_field` in
`exatomic/universe.py`. -/
structure FieldObj (μ ν : Type) where
  frames : List Int
  dims : List μ
  field_values : List ν

/-- The container state touched by field attachment: the frame index
(`self.frame.index`), the attached field (`self._field`, `none` when no field
is attached) and the display-refresh flag (`self._traits_need_update`). -/
structure UniState (μ ν : Type) where
  frameIndex : List Int
  field : Option (FieldObj μ ν)
  traitsNeedUpdate : Bool

/-- Row and value concatenation performed by the else branch of
`Universe.append_field`: the value lists are appended and the two dimension
dataframes are concatenated row-wise, so every field keeps its own metadata
row. -/
def concatFields {μ ν : Type} (cur df : FieldObj μ ν) : FieldObj μ ν :=
  { frames := cur.frames ++ df.frames
    dims := cur.dims ++ df.dims
    field_values := cur.field_values ++ df.field_values }

/-- Embedding of the second half of `Universe.append_field`: set the field
when none is attached, otherwise concatenate, and mark the traits as needing
update. -/
def attachField {μ ν : Type} (s : UniState μ ν) (df : FieldObj μ ν) :
    UniState μ ν :=
  match s.field with
  | none => { s with field := some df, traitsNeedUpdate := true }
  | some cur =>
      { s with field := some (concatFields cur df), traitsNeedUpdate := true }

/-- Shallow embedding of `Universe.append_field(field, frame)` from
`exatomic/universe.py`.  A supplied integer frame is first checked against the
frame index — `raise IndexError` when absent — and only then written into the
frame column of the field rows before attachment; the raise precedes every
mutation statement, so the error branch returns the input state unchanged. -/
def append_field {μ ν : Type} (s : UniState μ ν) (field : FieldObj μ ν)
    (frame : Option Int) : Except PyErr Unit × UniState μ ν :=
  match frame with
  | some f =>
      if f ∈ s.frameIndex then
        (Except.ok (),
          attachField s { field with frames := field.frames.map fun _ => f })
      else (Except.error PyErr.indexError, s)
  | none => (Except.ok (), attachField s field)

/-- Shallow embedding of `_teardown_orbital(uni, verbose, field, t1, inplace,
replace, dens)` from `exatomic/algorithms/orbital.py`.  Output: the returned
value (`some field` when inplace is false, Python None otherwise), the
container state afterwards, and the lines printed (the wall-clock timing
value itself is abstracted away).  On an initialised universe the field
attribute always exists, so the hasattr guard reduces to the replace flag;
deleting the attribute leaves no attached field.  The subsequent
`uni.add_field(field)` is the insert/concat attachment of spec section 4.6,
i.e. `append_field` without a frame argument. -/
def _teardown_orbital {μ ν : Type} (s : UniState μ ν) (verbose : Bool)
    (field : FieldObj μ ν) (inplace replace dens : Bool) :
    Option (FieldObj μ ν) × UniState μ ν × List String :=
  let prints := if verbose then
      [if dens then "Timing: compute density" else "Timing: compute orbitals"]
    else []
  if inplace = false then (some field, s, prints)
  else
    let s1 := if replace then { s with field := none } else s
    (none, (append_field s1 field none).2, prints)

/-- Modelled from the spec: `_check_column` lives in the `orbital_util`
module, which is not part of this excerpt.  Spec section 6 describes it as a
check-column-exists-else-default lookup contract for named table columns: a
missing name resolves to the documented default, a supplied name is kept when
it is a column of the table. -/
def _check_column (cols : List String) (dflt : String) (col : Option String) :
    String :=
  match col with
  | none => dflt
  | some c => if c ∈ cols then c else dflt

/-- Embedding of the occupation-column resolution in `add_density`
(`exatomic/algorithms/orbital.py` lines 102 and 105-106): first
`mocol = mocoefs`; then orbocc is replaced by mocol when orbocc is None and
mocol is not the string coef; finally `_check_column` on the orbital table
resolves a still-missing name to the documented default occupation. -/
def resolveDensityOrbocc (orbitalCols : List String)
    (mocoefs orbocc : Option String) : String :=
  let mocol := mocoefs
  let orbocc1 := if orbocc = none ∧ mocol ≠ some ("coef") then mocol else orbocc
  _check_column orbitalCols ("occupation") orbocc1

/-- Numpy `np.isclose(a, 0)` with the default tolerances (rtol 1e-5,
atol 1e-8): against a zero reference it reduces to `abs a` at most the
absolute tolerance 1e-8.  Occupations are modelled as rationals and the
comparison is phrased on the reduced numerator and denominator so that it
evaluates by kernel reduction; the theorem `npIsClose_iff` proves it equal to
the intended inequality. -/
def npIsClose (a : ℚ) : Bool := decide (100000000 * a.num.natAbs ≤ a.den)

/-- The orbital selection of `add_density` (line 107): positions of the
occupation column whose value is not close to zero (the boolean-mask indexing
of the orbital table index). -/
def densityVector (occ : List ℚ) : List ℕ :=
  ((occ.enum).filter fun p => !(npIsClose p.2)).map Prod.fst

/-- The occupation values of `add_density` (line 108): the occupation column
restricted to the selected positions. -/
def densityOccvec (occ : List ℚ) : List ℚ :=
  ((occ.enum).filter fun p => !(npIsClose p.2)).map Prod.snd

/-- Modelled from the spec: `_compute_orbitals` (and its nojit twin, required
to produce equivalent values) live in the missing `orbital_util` module; spec
section 4.4 defines the per-orbital grid values as the dense product of the
basis values with the selected coefficient columns.  `bvs p b` is the value
of basis function `b` at grid point `p` and `coefs b o` the coefficient
matrix; the result lists the selected orbital values at point `p`. -/
def _compute_orbitals (nbf : ℕ) (bvs coefs : ℕ → ℕ → ℚ) (vector : List ℕ)
    (p : ℕ) : List ℚ :=
  vector.map fun o => ((List.range nbf).map fun b => bvs p b * coefs b o).sum

/-- Modelled from the spec: `_compute_density` from the missing
`orbital_util` module; spec section 4.4: density at a grid point is the sum
over the selected orbitals of occupation times squared orbital value
(unnormalized mode). -/
def _compute_density (ovs occ : List ℚ) : ℚ :=
  ((ovs.zip occ).map fun q => q.2 * q.1 ^ 2).sum

/-- The density-field values produced by `add_density`
(`exatomic/algorithms/orbital.py` lines 107-114): select the orbitals with
occupation not close to zero, evaluate them, and reduce to a density value at
each of the `npoints` grid points. -/
def add_density_values (npoints nbf : ℕ) (bvs coefs : ℕ → ℕ → ℚ)
    (occ : List ℚ) : List ℚ :=
  let vector := densityVector occ
  let occvec := densityOccvec occ
  (List.range npoints).map fun p =>
    _compute_density (_compute_orbitals nbf bvs coefs vector p) occvec

/-- Magnetic-axes matrix (3x3), as a list of rows. -/
abbrev Maxes := List (List ℚ)

/-- Identity magnetic axes, `np.eye(3)`. -/
def eye3 : Maxes := [[1, 0, 0], [0, 1, 0], [0, 0, 1]]

/-- External capabilities consumed by `add_orb_ang_mom`: the basis-function
evaluator and its derivative evaluator, the coefficient-matrix accessor, the
orbital table, and the computational kernels from the missing `orbital_util`
module.  Matrices have the abstract type `β`.  Modelled from the spec: each
collaborator that receives the verbose flag is split into a value part
(independent of verbose) and a trace part (the lines it prints), since the
spec stipulates that the verbosity flag is a pure side channel for these
collaborators and does not affect results. -/
structure AngMomCaps (β μ ν : Type) where
  nbf : ℕ
  momatrixCols : List String
  square : String → β
  bvs : β
  evaluateTrace : Bool → List String
  evalDiff : String → β
  evalDiffTrace : Bool → List String
  occValues : String → List ℚ
  currentDensity : β → β → β → β → β → β → List ℚ → β × β × β
  currentDensityTrace : Bool → List String
  shapeLine : β → String
  orbAngMom : β → β → β → Maxes → FieldObj μ ν

/-- Observable outcome of a call to `add_orb_ang_mom`: the returned value (or
the raised exception), the container state afterwards, the printed lines, and
the externally visible computation steps, in source order. -/
structure AngMomOut (μ ν : Type) where
  result : Except PyErr (Option (FieldObj μ ν))
  state : UniState μ ν
  prints : List String
  effects : List String

/-- Shallow embedding of `add_orb_ang_mom`
(`exatomic/algorithms/orbital.py` lines 118-163): the rcoefs/icoefs guard
comes first; then `_setup_orbital` (basis evaluation and the two coefficient
squares), the orbocc and maxes defaults, the occupation lookup, the three
derivative-grid evaluations, the verbose-gated timing prints, the two
coefficient shape prints of lines 153-154 (which the source does not gate on
verbose), the current-density kernel, the field construction, and the
teardown, which the source calls with verbose literally False. -/
def add_orb_ang_mom_model {β μ ν : Type} (caps : AngMomCaps β μ ν)
    (s : UniState μ ν) (rcoefs icoefs orbocc : Option String)
    (maxes : Option Maxes) (inplace verbose : Bool) : AngMomOut μ ν :=
  if rcoefs.isNone || icoefs.isNone then
    { result := Except.error (PyErr.exception ("Must specify rcoefs and icoefs"))
      state := s
      prints := []
      effects := [] }
  else
    let rcol := rcoefs.getD ("")
    let icol := icoefs.getD ("")
    let setupPrints :=
      (if verbose then
        ["Evaluating " ++ toString caps.nbf ++ " basis functions once."]
      else []) ++ caps.evaluateTrace verbose
    let rcName := _check_column caps.momatrixCols ("coef") (some rcol)
    let rcm := caps.square rcName
    let icName := _check_column caps.momatrixCols ("coef") (some icol)
    let icm := caps.square icName
    let occCol := orbocc.getD rcol
    let maxesPrints :=
      if maxes.isNone && verbose then
        ["If magnetic axes are not an identity matrix, specify maxes."]
      else []
    let mx := maxes.getD eye3
    let occvec := caps.occValues occCol
    let grx := caps.evalDiff ("x")
    let gry := caps.evalDiff ("y")
    let grz := caps.evalDiff ("z")
    let diffPrints := caps.evalDiffTrace verbose ++ caps.evalDiffTrace verbose
      ++ caps.evalDiffTrace verbose
    let timing1 := if verbose then ["Timing: grid evaluation"] else []
    let shapePrints := [caps.shapeLine rcm, caps.shapeLine icm]
    let cur := caps.currentDensity caps.bvs grx gry grz rcm icm occvec
    let cdPrints := caps.currentDensityTrace verbose
    let timing2 := if verbose then ["Timing: current density"] else []
    let field := caps.orbAngMom cur.1 cur.2.1 cur.2.2 mx
    let td := _teardown_orbital s false field inplace false false
    { result := Except.ok td.1
      state := td.2.1
      prints := setupPrints ++ maxesPrints ++ diffPrints ++ timing1
        ++ shapePrints ++ cdPrints ++ timing2 ++ td.2.2
      effects := ["evaluate_basis", "square " ++ rcName, "square " ++ icName,
        "orbital_column " ++ occCol, "evaluate_diff_x", "evaluate_diff_y",
        "evaluate_diff_z", "current_density"] }

/-- Concrete capabilities used to evaluate the models on explicit inputs. -/
def capsEx : AngMomCaps ℕ ℕ ℕ :=
  { nbf := 2
    momatrixCols := ["coef", "lreal", "limag"]
    square := fun _ => 0
    bvs := 0
    evaluateTrace := fun v => if v then ["evaluate progress"] else []
    evalDiff := fun _ => 0
    evalDiffTrace := fun v => if v then ["evaluate_diff progress"] else []
    occValues := fun _ => [1]
    currentDensity := fun _ _ _ _ _ _ _ => (0, 0, 0)
    currentDensityTrace := fun v => if v then ["current density progress"] else []
    shapeLine := fun _ => "(2, 2) float64"
    orbAngMom := fun _ _ _ _ => { frames := [0], dims := [0], field_values := [0] } }

/-- Concrete container state used to evaluate the models on explicit
inputs. -/
def stateEx : UniState ℕ ℕ :=
  { frameIndex := [0], field := none, traitsNeedUpdate := false }

/-- External capabilities consumed by `add_density`: the basis-function
evaluator, the coefficient-matrix accessor (`current_momatrix.square`), and
the orbital table columns.  Modelled from the spec: the basis evaluator
receives the verbose flag and is split into a value part (independent of
verbose) and a trace part (the lines it prints), since the spec stipulates
that the verbosity flag is a pure side channel for these collaborators and
does not affect results.  `fps0` is the grid-metadata row `fps.loc[0]` the
field is packaged with. -/
structure DensityCaps (μ : Type) where
  nbf : ℕ
  npoints : ℕ
  evaluateTrace : Bool → List String
  bvs : ℕ → ℕ → ℚ
  momatrixCols : List String
  square : String → ℕ → ℕ → ℚ
  orbitalCols : List String
  occColumn : String → List ℚ
  fps0 : μ

/-- Shallow embedding of `add_density`
(`exatomic/algorithms/orbital.py` lines 89-115): `_setup_orbital` (with its
verbose-gated prints), the occupation-column resolution of lines 102 and
105-106, the occupation-based orbital selection, the fast/fallback orbital
evaluation, the field construction and the teardown (which the source calls
with replace False and the default dens False).  `fastFails` records whether
the jit fast path raised one of the caught error classes (an
environment-dependent fact about shapes and dtypes, not derivable inside the
embedding); the two paths are required by spec section 4.4 to produce
equivalent values, so the values are computed once by `add_density_values`
either way.  The fallback notice of line 112 is printed whenever the
fallback runs — its verbose guard is commented out in the source, so the
print does not depend on verbose.  Output: the returned value, the container
state afterwards, and the printed lines, in source order. -/
def add_density_model {μ : Type} (caps : DensityCaps μ)
    (s : UniState μ (List ℚ)) (mocoefs orbocc : Option String)
    (inplace fastFails verbose : Bool) :
    Option (FieldObj μ (List ℚ)) × UniState μ (List ℚ) × List String :=
  let mocol := mocoefs
  let setupPrints :=
    (if verbose then
      ["Evaluating " ++ toString caps.nbf ++ " basis functions once."]
    else []) ++ caps.evaluateTrace verbose
  let mocoefsName := _check_column caps.momatrixCols ("coef") mocoefs
  let coefs := caps.square mocoefsName
  let orboccName := resolveDensityOrbocc caps.orbitalCols mocol orbocc
  let occ := caps.occColumn orboccName
  let fallbackPrints :=
    if fastFails then ["Falling back to numpy orbital evaluation."] else []
  let dens := add_density_values caps.npoints caps.nbf caps.bvs coefs occ
  let field : FieldObj μ (List ℚ) :=
    { frames := [0], dims := [caps.fps0], field_values := [dens] }
  let td := _teardown_orbital s verbose field inplace false false
  (td.1, td.2.1, setupPrints ++ fallbackPrints ++ td.2.2)

/-- Concrete density capabilities used to evaluate the model on explicit
inputs. -/
def densityCapsEx : DensityCaps ℕ :=
  { nbf := 1
    npoints := 1
    evaluateTrace := fun v => if v then ["evaluate progress"] else []
    bvs := fun _ _ => 1
    momatrixCols := ["coef"]
    square := fun _ _ _ => 1
    orbitalCols := ["occupation"]
    occColumn := fun _ => [1]
    fps0 := 0 }

/-- Concrete container state (field values are density lists) used to
evaluate `add_density_model` on explicit inputs. -/
def densityStateEx : UniState ℕ (List ℚ) :=
  { frameIndex := [0], field := none, traitsNeedUpdate := false }

theorem filter_range_beq (n c : ℕ) :
    ((List.range n).filter fun k => k == c) = if c < n then [c] else [] := by
  induction n with
  | zero => simp
  | succ n ih =>
    rw [List.range_succ, List.filter_append, ih]
    by_cases h1 : c < n
    · have h2 : c < n + 1 := Nat.lt_succ_of_lt h1
      have h3 : (n == c) = false := by
        simp only [beq_eq_false_iff_ne, ne_eq]
        omega
      simp [h2, h1, List.filter_cons, h3]
    · by_cases h2 : c = n
      · subst h2
        simp [h1, List.filter_cons]
      · have h3 : ¬ c < n + 1 := by omega
        have h4 : (n == c) = false := by
          simp only [beq_eq_false_iff_ne, ne_eq]
          omega
        simp [h1, h3, List.filter_cons, h4]

theorem flatMap_congr_mem {α β : Type} {l : List α} {f g : α → List β}
    (h : ∀ a ∈ l, f a = g a) : l.flatMap f = l.flatMap g := by
  induction l with
  | nil => rfl
  | cons x xs ih =>
    rw [List.flatMap_cons, List.flatMap_cons, h x (List.mem_cons_self x xs),
      ih fun a ha => h a (List.mem_cons_of_mem x ha)]

theorem flatMap_range_if {α : Type} (n t : ℕ) (f : ℕ → α) :
    ((List.range n).flatMap fun j => if j < t then [f j] else [])
      = (List.range (min t n)).map f := by
  induction n with
  | zero => simp
  | succ n ih =>
    rw [List.range_succ, List.flatMap_append, ih]
    by_cases h1 : n < t
    · have h2 : min t n = n := by omega
      have h3 : min t (n + 1) = n + 1 := by omega
      rw [h2, h3, List.range_succ, List.map_append]
      simp [h1]
    · have h2 : min t n = t := by omega
      have h3 : min t (n + 1) = t := by omega
      rw [h2, h3]
      simp [h1]

theorem filter_range_sum_eq (l i j : ℕ) :
    ((List.range (l + 1)).filter fun k => i + j + k == l)
      = if i + j ≤ l then [l - i - j] else [] := by
  by_cases h : i + j ≤ l
  · have hcongr : ∀ k ∈ List.range (l + 1),
        (i + j + k == l) = (k == l - i - j) := by
      intro k _
      by_cases hk : i + j + k = l
      · have hk2 : k = l - i - j := by omega
        subst hk2
        have h1 : (i + j + (l - i - j) == l) = true := by
          simp only [beq_iff_eq]
          omega
        rw [h1, beq_self_eq_true]
      · have h1 : (i + j + k == l) = false := by
          simp only [beq_eq_false_iff_ne, ne_eq]
          omega
        have h2 : (k == l - i - j) = false := by
          simp only [beq_eq_false_iff_ne, ne_eq]
          omega
        rw [h1, h2]
    rw [List.filter_congr hcongr, filter_range_beq]
    have : l - i - j < l + 1 := by omega
    simp [h, this]
  · have : ∀ k ∈ List.range (l + 1), ¬ ((i + j + k == l) = true) := by
      intro k _
      simp only [beq_iff_eq]
      omega
    rw [List.filter_eq_nil_iff.mpr this]
    simp [h]

theorem cartesian_gtf_exponents_eq_lexTriples (l : ℕ) :
    cartesian_gtf_exponents l = lexTriples l := by
  unfold cartesian_gtf_exponents lexTriples
  refine flatMap_congr_mem fun i hi => ?_
  have hil : i ≤ l := by
    have := List.mem_range.mp hi
    omega
  have hstep :
      ((List.range (l + 1)).flatMap fun j =>
        ((List.range (l + 1)).filter fun k => i + j + k == l).map fun k => (i, j, k))
      = (List.range (l + 1)).flatMap fun j =>
          if j < l + 1 - i then [(i, j, l - i - j)] else [] := by
    refine flatMap_congr_mem fun j _ => ?_
    rw [filter_range_sum_eq]
    by_cases h : i + j ≤ l
    · have h2 : j < l + 1 - i := by omega
      simp [h, h2]
    · have h2 : ¬ j < l + 1 - i := by omega
      simp [h, h2]
  rw [hstep, flatMap_range_if (l + 1) (l + 1 - i) (fun j => (i, j, l - i - j))]
  have : min (l + 1 - i) (l + 1) = l + 1 - i := by omega
  rw [this]

theorem sum_map_add_one (n : ℕ) (f : ℕ → ℕ) :
    ((List.range n).map fun i => f i + 1).sum = ((List.range n).map f).sum + n := by
  induction n with
  | zero => simp
  | succ n ih =>
    rw [List.range_succ, List.map_append, List.map_append, List.sum_append,
      List.sum_append, ih]
    simp
    omega

theorem gauss_list (n : ℕ) :
    2 * ((List.range n).map fun i => n - i).sum = n * (n + 1) := by
  induction n with
  | zero => simp
  | succ n ih =>
    rw [List.range_succ, List.map_append, List.sum_append]
    have hcongr : ((List.range n).map fun i => n + 1 - i)
        = (List.range n).map fun i => (n - i) + 1 := by
      refine List.map_congr_left fun a ha => ?_
      have := List.mem_range.mp ha
      omega
    rw [hcongr, sum_map_add_one n fun i => n - i]
    have h2 : (List.map (fun i => n + 1 - i) [n]).sum = 1 := by simp
    have hr : (n + 1) * (n + 1 + 1) = n * (n + 1) + 2 * (n + 1) := by ring
    rw [h2, hr]
    omega

theorem lexTriples_length (l : ℕ) :
    (lexTriples l).length = (l + 1) * (l + 2) / 2 := by
  unfold lexTriples
  rw [List.length_flatMap]
  have hcongr : (List.map (List.length ∘ fun i =>
      (List.range (l + 1 - i)).map fun j => (i, j, l - i - j)) (List.range (l + 1)))
      = (List.range (l + 1)).map fun i => l + 1 - i := by
    refine List.map_congr_left fun a _ => ?_
    simp
  rw [hcongr]
  have hg := gauss_list (l + 1)
  have hr : (l + 1) * (l + 1 + 1) = (l + 1) * (l + 2) := by ring
  rw [hr] at hg
  omega

theorem lexTriples_mem (l a b c : ℕ) :
    (a, b, c) ∈ lexTriples l ↔ a + b + c = l := by
  unfold lexTriples
  simp only [List.mem_flatMap, List.mem_map, List.mem_range]
  constructor
  · rintro ⟨i, hi, j, hj, heq⟩
    have ha : i = a := congrArg Prod.fst heq
    have hb : j = b := congrArg (fun t => t.2.1) heq
    have hc : l - i - j = c := congrArg (fun t => t.2.2) heq
    omega
  · intro h
    refine ⟨a, by omega, b, by omega, ?_⟩
    have : l - a - b = c := by omega
    rw [this]

theorem pairwise_flatMap {α β : Type} {R : β → β → Prop} {l : List α}
    {f : α → List β} (hinner : ∀ a ∈ l, (f a).Pairwise R)
    (hcross : l.Pairwise fun a b => ∀ x ∈ f a, ∀ y ∈ f b, R x y) :
    (l.flatMap f).Pairwise R := by
  induction l with
  | nil => simp
  | cons a as ih =>
    rw [List.flatMap_cons, List.pairwise_append]
    refine ⟨hinner a (List.mem_cons_self a as), ?_, ?_⟩
    · exact ih (fun b hb => hinner b (List.mem_cons_of_mem a hb))
        (List.Pairwise.sublist (List.sublist_cons_self a as) hcross)
    · intro x hx y hy
      obtain ⟨b, hb, hyb⟩ := List.mem_flatMap.mp hy
      have hrel := (List.pairwise_cons.mp hcross).1 b hb
      exact hrel x hx y hyb

theorem lexTriples_pairwise (l : ℕ) : (lexTriples l).Pairwise lexLt := by
  unfold lexTriples
  refine pairwise_flatMap (fun i _ => ?_) ?_
  · rw [List.pairwise_map]
    refine List.Pairwise.imp ?_ (List.pairwise_lt_range (l + 1 - i))
    intro a b hab
    right
    exact ⟨rfl, Or.inl hab⟩
  · refine List.Pairwise.imp ?_ (List.pairwise_lt_range (l + 1))
    intro a b hab x hx y hy
    obtain ⟨j1, _, hx1⟩ := List.mem_map.mp hx
    obtain ⟨j2, _, hy1⟩ := List.mem_map.mp hy
    left
    rw [← hx1, ← hy1]
    exact hab

theorem lexTriples_nodup (l : ℕ) : (lexTriples l).Nodup := by
  refine List.Pairwise.imp ?_ (lexTriples_pairwise l)
  intro a b hab
  rcases hab with h | ⟨h1, h | ⟨h2, h3⟩⟩
  · exact fun he => absurd (congrArg Prod.fst he) (Nat.ne_of_lt h)
  · exact fun he => absurd (congrArg (fun t => t.2.1) he) (Nat.ne_of_lt h)
  · exact fun he => absurd (congrArg (fun t => t.2.2) he) (Nat.ne_of_lt h3)

/-- C1: the exponent generator returns `(l+1)(l+2)/2` rows, the rows are
exactly the non-negative triples summing to `l`, and there are no
duplicates. -/
theorem C1_cartesian_gtf_exponents_complete (l : ℕ) :
    (cartesian_gtf_exponents l).length = (l + 1) * (l + 2) / 2 ∧
    (∀ a b c : ℕ, (a, b, c) ∈ cartesian_gtf_exponents l ↔ a + b + c = l) ∧
    (cartesian_gtf_exponents l).Nodup := by
  rw [cartesian_gtf_exponents_eq_lexTriples]
  exact ⟨lexTriples_length l, fun a b c => lexTriples_mem l a b c, lexTriples_nodup l⟩

/-- C6: the enumeration order is fixed: successive rows are strictly
ascending in the lexicographic order on `(i, j, k)` (ascending `i`, then `j`,
then `k`); determinism of repeated calls is immediate since the embedding is a
pure function of `l`. -/
theorem C6_cartesian_gtf_exponents_lex_sorted (l : ℕ) :
    (cartesian_gtf_exponents l).Pairwise lexLt := by
  rw [cartesian_gtf_exponents_eq_lexTriples]
  exact lexTriples_pairwise l

/-- C2 counterexample: when the fast path raises ValueError and the nojit
fallback itself raises TypeError, the error that reaches the caller is
TypeError — not the original error class, contrary to the claim. -/
theorem C2_counterexample_fallback_error_replaces_original :
    (computeOrbitalsWithFallback
        (fun _ : ℕ => (Except.error PyErr.valueError : Except PyErr ℕ))
        (fun _ => Except.error PyErr.typeError) 0).result
      = Except.error PyErr.typeError ∧
    (Except.error PyErr.typeError : Except PyErr ℕ)
      ≠ Except.error PyErr.valueError := by
  refine ⟨rfl, fun h => ?_⟩
  exact PyErr.noConfusion (Except.error.inj h)

/-- C2 (amended): the fast path is attempted first; exactly when it raises
ValueError, IndexError or AssertionError the nojit fallback is invoked once
with the same arguments and its outcome is delivered — a successful fallback
result is used with no error reaching the caller, and when the fallback also
fails it is the fallback error (not the original one) that propagates; errors
outside the three caught classes propagate directly with no fallback call. -/
theorem C2_fallback_dispatch {α β : Type} (fast slow : α → Except PyErr β)
    (a : α) :
    (∀ v, fast a = Except.ok v →
      computeOrbitalsWithFallback fast slow a
        = { result := Except.ok v, nojitArgs := [] }) ∧
    (∀ e, fast a = Except.error e → caughtByFallback e = true →
      computeOrbitalsWithFallback fast slow a
        = { result := slow a, nojitArgs := [a] }) ∧
    (∀ e, fast a = Except.error e → caughtByFallback e = false →
      computeOrbitalsWithFallback fast slow a
        = { result := Except.error e, nojitArgs := [] }) := by
  refine ⟨fun v h => ?_, fun e h hc => ?_, fun e h hc => ?_⟩
  · simp [computeOrbitalsWithFallback, h]
  · simp [computeOrbitalsWithFallback, h, hc]
  · simp [computeOrbitalsWithFallback, h, hc]

/-- C2 witness: a concrete run in which the fast path raises IndexError and
the fallback succeeds; the fallback is called once on the same argument and
its result is delivered. -/
theorem C2_fallback_dispatch_witness :
    computeOrbitalsWithFallback
        (fun _ : ℕ => (Except.error PyErr.indexError : Except PyErr ℕ))
        (fun _ => Except.ok 7) 3
      = { result := Except.ok 7, nojitArgs := [3] } :=
  (C2_fallback_dispatch (fun _ : ℕ => (Except.error PyErr.indexError : Except PyErr ℕ))
    (fun _ => Except.ok 7) 3).2.1 PyErr.indexError rfl rfl

/-- C3: when rcoefs or icoefs is omitted, add_orb_ang_mom raises an exception
whose message names both components, before any printed output, any grid or
coefficient computation effect, and any container mutation: the outcome is
the error with the input state unchanged and empty print and effect
traces. -/
theorem C3_ang_mom_requires_both_components {β μ ν : Type}
    (caps : AngMomCaps β μ ν) (s : UniState μ ν)
    (rcoefs icoefs orbocc : Option String) (maxes : Option Maxes)
    (inplace verbose : Bool) (h : rcoefs = none ∨ icoefs = none) :
    add_orb_ang_mom_model caps s rcoefs icoefs orbocc maxes inplace verbose
      = { result := Except.error (PyErr.exception ("Must specify rcoefs and icoefs"))
          state := s
          prints := []
          effects := [] } := by
  rcases h with h | h <;> subst h <;> simp [add_orb_ang_mom_model]

/-- C3 witness: concrete call with rcoefs omitted. -/
theorem C3_ang_mom_requires_both_components_witness :
    add_orb_ang_mom_model capsEx stateEx none (some ("limag")) none none true true
      = { result := Except.error (PyErr.exception ("Must specify rcoefs and icoefs"))
          state := stateEx
          prints := []
          effects := [] } :=
  C3_ang_mom_requires_both_components capsEx stateEx none (some ("limag")) none
    none true true (Or.inl rfl)

/-- C4: attaching a field in place onto a container that already holds one:
with replace true only the new field remains; with replace false the
container holds the concatenation of the prior and new field-value lists,
with the per-field metadata rows concatenated likewise (fields are collected,
not merged). -/
theorem C4_field_attachment_replace_vs_concat {μ ν : Type} (s : UniState μ ν)
    (cur fnew : FieldObj μ ν) (verbose dens : Bool) (h : s.field = some cur) :
    ((_teardown_orbital s verbose fnew true true dens).2.1.field = some fnew) ∧
    ((_teardown_orbital s verbose fnew true false dens).2.1.field
      = some (concatFields cur fnew)) := by
  constructor
  · simp [_teardown_orbital, append_field, attachField]
  · simp [_teardown_orbital, append_field, attachField, h]

/-- C4 witness: a universe holding one field receives a second one, once with
replace and once without. -/
theorem C4_field_attachment_replace_vs_concat_witness :
    ((_teardown_orbital
        ({ frameIndex := [0]
           field := some { frames := [0], dims := [0], field_values := [10] }
           traitsNeedUpdate := false } : UniState ℕ ℕ)
        true { frames := [1], dims := [2], field_values := [20] } true true
        false).2.1.field
      = some { frames := [1], dims := [2], field_values := [20] }) ∧
    ((_teardown_orbital
        ({ frameIndex := [0]
           field := some { frames := [0], dims := [0], field_values := [10] }
           traitsNeedUpdate := false } : UniState ℕ ℕ)
        true { frames := [1], dims := [2], field_values := [20] } true false
        false).2.1.field
      = some (concatFields { frames := [0], dims := [0], field_values := [10] }
          { frames := [1], dims := [2], field_values := [20] })) :=
  C4_field_attachment_replace_vs_concat
    ({ frameIndex := [0]
       field := some { frames := [0], dims := [0], field_values := [10] }
       traitsNeedUpdate := false } : UniState ℕ ℕ)
    { frames := [0], dims := [0], field_values := [10] }
    { frames := [1], dims := [2], field_values := [20] } true false rfl

theorem npIsClose_iff (a : ℚ) : npIsClose a = true ↔ |a| ≤ 1 / 100000000 := by
  rw [npIsClose, decide_eq_true_eq]
  have hq : ((1:ℚ)/100000000) = mkRat 1 100000000 := by
    norm_num [Rat.mkRat_eq_div]
  rw [hq, abs_le, Rat.le_def, Rat.le_def]
  have h1 : (mkRat 1 100000000).num = 1 := rfl
  have h2 : ((mkRat 1 100000000).den : ℤ) = 100000000 := rfl
  have h3 : (-(mkRat 1 100000000)).num = -1 := rfl
  have h4 : ((-(mkRat 1 100000000)).den : ℤ) = 100000000 := rfl
  rw [h1, h2, h3, h4]
  omega

theorem enumFrom_filter_close_nil (n : ℕ) (l : List ℚ)
    (h : ∀ x ∈ l, npIsClose x = true) :
    ((List.enumFrom n l).filter fun p => !(npIsClose p.2)) = [] := by
  induction l generalizing n with
  | nil => rfl
  | cons x xs ih =>
    rw [List.enumFrom_cons, List.filter_cons]
    have hx : npIsClose x = true := h x (List.mem_cons_self x xs)
    simp only [hx, Bool.not_true]
    exact ih (n + 1) fun y hy => h y (List.mem_cons_of_mem x hy)

/-- C5: when every orbital occupation is (numerically close to) zero, every
value of the density field produced by add_density is zero. -/
theorem C5_zero_occupations_zero_density (npoints nbf : ℕ)
    (bvs coefs : ℕ → ℕ → ℚ) (occ : List ℚ)
    (h : ∀ x ∈ occ, npIsClose x = true) :
    ∀ v ∈ add_density_values npoints nbf bvs coefs occ, v = 0 := by
  intro v hv
  have h1 : densityVector occ = [] := by
    unfold densityVector
    rw [show occ.enum = List.enumFrom 0 occ from rfl,
      enumFrom_filter_close_nil 0 occ h]
    rfl
  have h2 : densityOccvec occ = [] := by
    unfold densityOccvec
    rw [show occ.enum = List.enumFrom 0 occ from rfl,
      enumFrom_filter_close_nil 0 occ h]
    rfl
  have hv2 : v ∈ (List.range npoints).map fun p =>
      _compute_density (_compute_orbitals nbf bvs coefs (densityVector occ) p)
        (densityOccvec occ) := hv
  rw [h1, h2] at hv2
  obtain ⟨p, hp, hpe⟩ := List.mem_map.mp hv2
  subst hpe
  rfl

/-- C5 witness: a one-orbital, one-point system with occupation zero yields
the all-zero density list. -/
theorem C5_zero_occupations_zero_density_witness :
    (add_density_values 1 1 (fun _ _ => 1) (fun _ _ => 1) [0]).getD 0 1 = 0 :=
  C5_zero_occupations_zero_density 1 1 (fun _ _ => 1) (fun _ _ => 1) [0]
    (by decide) ((add_density_values 1 1 (fun _ _ => 1) (fun _ _ => 1) [0]).getD 0 1)
    (by decide)

/-- C7: append_field called with an integer frame absent from the frame index
raises IndexError immediately, with the whole container state — in particular
the field state and the traits flag — unchanged. -/
theorem C7_append_field_bad_frame_raises {μ ν : Type} (s : UniState μ ν)
    (field : FieldObj μ ν) (f : Int) (h : f ∉ s.frameIndex) :
    append_field s field (some f) = (Except.error PyErr.indexError, s) := by
  simp [append_field, h]

/-- C7 witness: frame 5 against a universe whose frame index is the singleton
zero. -/
theorem C7_append_field_bad_frame_raises_witness :
    append_field stateEx { frames := [0], dims := [0], field_values := [0] }
        (some 5)
      = (Except.error PyErr.indexError, stateEx) :=
  C7_append_field_bad_frame_raises stateEx
    { frames := [0], dims := [0], field_values := [0] } 5 (by decide)

/-- C8 counterexample: with verbose set to false the evaluators still print —
add_density emits its fallback notice when the fast path falls back (the
verbose guard of line 112 is commented out in the source) and add_orb_ang_mom
prints the two coefficient-matrix shape lines (lines 153-154 are not gated on
verbose) — so the claimed silence fails at both cited sources. -/
theorem C8_counterexample_not_silent :
    (add_density_model densityCapsEx densityStateEx none none true true
        false).2.2 ≠ [] ∧
    (add_orb_ang_mom_model capsEx stateEx (some ("lreal")) (some ("limag"))
        none none true false).prints ≠ [] := by
  constructor <;> decide

/-- C8 (amended): the verbose flag never affects the computed field values,
the attached/returned result, the container state, or the computation effects
of the evaluators; but with verbose set to false they are not silent:
add_density still prints its fallback notice whenever the fast path falls
back, and add_orb_ang_mom, whenever both coefficient columns are supplied,
still prints the coefficient shape lines. -/
theorem C8_verbose_side_channel :
    (∀ (μ : Type) (caps : DensityCaps μ) (s : UniState μ (List ℚ))
        (mocoefs orbocc : Option String) (inplace fastFails : Bool),
      ((add_density_model caps s mocoefs orbocc inplace fastFails true).1
        = (add_density_model caps s mocoefs orbocc inplace fastFails false).1) ∧
      ((add_density_model caps s mocoefs orbocc inplace fastFails true).2.1
        = (add_density_model caps s mocoefs orbocc inplace fastFails false).2.1) ∧
      (fastFails = true →
        ("Falling back to numpy orbital evaluation.")
          ∈ (add_density_model caps s mocoefs orbocc inplace fastFails
              false).2.2)) ∧
    (∀ (β μ ν : Type) (caps : AngMomCaps β μ ν) (s : UniState μ ν)
        (rcoefs icoefs orbocc : Option String) (maxes : Option Maxes)
        (inplace : Bool),
      ((add_orb_ang_mom_model caps s rcoefs icoefs orbocc maxes inplace true).result
        = (add_orb_ang_mom_model caps s rcoefs icoefs orbocc maxes inplace false).result) ∧
      ((add_orb_ang_mom_model caps s rcoefs icoefs orbocc maxes inplace true).state
        = (add_orb_ang_mom_model caps s rcoefs icoefs orbocc maxes inplace false).state) ∧
      ((add_orb_ang_mom_model caps s rcoefs icoefs orbocc maxes inplace true).effects
        = (add_orb_ang_mom_model caps s rcoefs icoefs orbocc maxes inplace false).effects) ∧
      (rcoefs.isSome = true → icoefs.isSome = true →
        (add_orb_ang_mom_model caps s rcoefs icoefs orbocc maxes inplace false).prints
          ≠ [])) := by
  constructor
  · intro μ caps s mocoefs orbocc inplace fastFails
    refine ⟨?_, ?_, ?_⟩ <;>
      cases inplace <;> cases fastFails <;>
        simp [add_density_model, _teardown_orbital]
  · intro β μ ν caps s rcoefs icoefs orbocc maxes inplace
    refine ⟨?_, ?_, ?_, ?_⟩ <;>
      cases rcoefs <;> cases icoefs <;>
        simp [add_orb_ang_mom_model, List.append_eq_nil]

/-- C8 witness: concrete runs of both evaluators showing the result
unaffected by verbose while the verbose-false print traces contain the
unconditional notices. -/
theorem C8_verbose_side_channel_witness :
    ((add_density_model densityCapsEx densityStateEx none none true true true).1
      = (add_density_model densityCapsEx densityStateEx none none true true
          false).1) ∧
    (("Falling back to numpy orbital evaluation.")
      ∈ (add_density_model densityCapsEx densityStateEx none none true true
          false).2.2) ∧
    ((add_orb_ang_mom_model capsEx stateEx (some ("lreal")) (some ("limag"))
        none none true true).result
      = (add_orb_ang_mom_model capsEx stateEx (some ("lreal")) (some ("limag"))
        none none true false).result) ∧
    (add_orb_ang_mom_model capsEx stateEx (some ("lreal")) (some ("limag"))
        none none true false).prints ≠ [] :=
  ⟨(C8_verbose_side_channel.1 ℕ densityCapsEx densityStateEx none none true
      true).1,
   (C8_verbose_side_channel.1 ℕ densityCapsEx densityStateEx none none true
      true).2.2 rfl,
   (C8_verbose_side_channel.2 ℕ ℕ ℕ capsEx stateEx (some ("lreal"))
      (some ("limag")) none none true).1,
   (C8_verbose_side_channel.2 ℕ ℕ ℕ capsEx stateEx (some ("lreal"))
      (some ("limag")) none none true).2.2.2 rfl rfl⟩

/-- C9: with inplace false the evaluated field is returned as a value and the
container state is left completely untouched; the function returns before the
replace/attach branch, so even replace true deletes nothing. -/
theorem C9_inplace_false_returns_field_state_untouched {μ ν : Type}
    (s : UniState μ ν) (field : FieldObj μ ν) (verbose replace dens : Bool) :
    (_teardown_orbital s verbose field false replace dens).1 = some field ∧
    (_teardown_orbital s verbose field false replace dens).2.1 = s := by
  constructor <;> rfl

/-- C10: with orbocc omitted, the occupation column of add_density resolves
to the supplied mocoefs column name whenever that name is not coef (and names
an orbital-table column); the documented default occupation is used exactly
when mocoefs is omitted or equals coef. -/
theorem C10_density_orbocc_resolution (cols : List String) (c : String)
    (hc : c ≠ "coef") (hmem : c ∈ cols) :
    resolveDensityOrbocc cols (some c) none = c ∧
    resolveDensityOrbocc cols none none = "occupation" ∧
    resolveDensityOrbocc cols (some ("coef")) none = "occupation" := by
  refine ⟨?_, ?_, ?_⟩
  · simp [resolveDensityOrbocc, _check_column, hc, hmem]
  · simp [resolveDensityOrbocc, _check_column]
  · simp [resolveDensityOrbocc, _check_column]

/-- C10 witness: an orbital table with columns occupation and mycol, and
mocoefs equal to mycol. -/
theorem C10_density_orbocc_resolution_witness :
    resolveDensityOrbocc ["occupation", "mycol"] (some ("mycol")) none = "mycol" ∧
    resolveDensityOrbocc ["occupation", "mycol"] none none = "occupation" :=
  ⟨(C10_density_orbocc_resolution ["occupation", "mycol"] ("mycol") (by decide)
      (by decide)).1,
   (C10_density_orbocc_resolution ["occupation", "mycol"] ("mycol") (by decide)
      (by decide)).2.1⟩
